import Mathlib

/-! Verification of the gcore-mcp-server core: name shortening, toolset
selection, type-to-schema translation, SDK inspection and the tool
wrapper, shallowly embedded from the Python sources. -/

set_option autoImplicit false
set_option maxRecDepth 100000

namespace GcoreMcp

/-! ## Character-level string utilities

The embedding manipulates strings through their character lists with
structurally recursive functions, so that every definition evaluates by
kernel reduction (`decide` / `rfl`) on concrete inputs. -/

/-- Split a character list at every occurrence of `sep` (Python
`str.split(sep)` for a one-character separator): always at least one
group, and empty groups are kept. -/
def splitChar (sep : Char) : List Char → List (List Char)
  | [] => [[]]
  | c :: rest =>
    let r := splitChar sep rest
    if c == sep then [] :: r
    else
      match r with
      | [] => [[c]]
      | g :: gs => (c :: g) :: gs

/-- Python `str.split(sep)` as a `String` operation. -/
def splitStr (sep : Char) (s : String) : List String :=
  (splitChar sep s.data).map String.mk

/-- Join strings with a separator (Python `sep.join(parts)`). -/
def joinStr (sep : String) : List String → String
  | [] => ""
  | [x] => x
  | x :: y :: xs => x ++ sep ++ joinStr sep (y :: xs)

/-- The whitespace characters stripped by Python `str.strip()` that can
occur in the configuration strings at hand. -/
def isSpaceChar (c : Char) : Bool :=
  c == ' ' || c == '\t' || c == '\n' || c == '\r'

/-- Python `str.strip()`: drop leading and trailing whitespace. -/
def trimStr (s : String) : String :=
  ⟨((s.data.dropWhile isSpaceChar).reverse.dropWhile isSpaceChar).reverse⟩

/-- Does `lead` occur at the beginning of `l` (Python `startswith`)? -/
def leadsWith : List Char → List Char → Bool
  | [], _ => true
  | _ :: _, [] => false
  | a :: as, b :: bs => a == b && leadsWith as bs

/-- Does `needle` occur contiguously anywhere in `hay` (Python `in` on
strings)? -/
def hasSub (needle : List Char) : List Char → Bool
  | [] => leadsWith needle []
  | b :: bs => leadsWith needle (b :: bs) || hasSub needle bs

/-! ## Domain rules (`domain/gcore_domain.py`) -/

/-- Table `GcoreDomainHandler.get_resource_shortening_rules`. -/
def resourceShorteningRules : List (String × String) := [
  ("instances", "insts"),
  ("flavors", "flavs"),
  ("images", "imgs"),
  ("snapshots", "snaps"),
  ("volumes", "vols"),
  ("networks", "nets"),
  ("subnets", "subs"),
  ("routers", "rtrs"),
  ("ports", "ports"),
  ("floating_ips", "fips"),
  ("reserved_fixed_ips", "rfips"),
  ("load_balancers", "lb"),
  ("listeners", "lnrs"),
  ("pools", "pools"),
  ("members", "mbrs"),
  ("health_monitors", "hms"),
  ("l7policies", "l7pols"),
  ("l7rules", "l7rules"),
  ("security_groups", "secgrps"),
  ("security_group_rules", "secgrp_rules"),
  ("placement_groups", "placegrps"),
  ("ssh_keys", "sshkeys"),
  ("keypairs", "keypairs"),
  ("quotas", "quotas"),
  ("projects", "projs"),
  ("regions", "rgns"),
  ("secrets", "secr"),
  ("clusters", "clstrs"),
  ("nodes", "nodes"),
  ("registries", "regs"),
  ("file_shares", "fshares"),
  ("ai_clusters", "ai_clstrs"),
  ("inference", "infer"),
  ("deployments", "deploys")]

/-- Table `GcoreDomainHandler.get_method_shortening_rules`. -/
def methodShorteningRules : List (String × String) := [
  ("create", "new"),
  ("delete", "del"),
  ("list", "ls"),
  ("update", "upd"),
  ("replace", "repl"),
  ("assign_security_group", "assign_secgrp"),
  ("unassign_security_group", "unassign_secgrp"),
  ("add_to_placement_group", "add_placegrp"),
  ("remove_from_placement_group", "rm_placegrp"),
  ("disable_port_security", "dis_portsec"),
  ("enable_port_security", "en_portsec"),
  ("get_console", "console"),
  ("resize", "resize"),
  ("action", "action"),
  ("create_from_volume", "new_vol"),
  ("upload", "upload"),
  ("download", "download"),
  ("change_type", "chg_type"),
  ("revert_to_last_snapshot", "revert_snap"),
  ("attach_to_instance", "att_inst"),
  ("detach_from_instance", "det_inst"),
  ("extend", "extend"),
  ("create_snapshot", "snap"),
  ("revert", "revert"),
  ("get_capacity_by_region", "get_cap_region"),
  ("attach_subnet", "att_sub"),
  ("detach_subnet", "det_sub"),
  ("attach_router", "att_rtr"),
  ("detach_router", "det_rtr"),
  ("add_member", "add_mbr"),
  ("remove_member", "rm_mbr"),
  ("failover", "failover"),
  ("copy", "copy"),
  ("revert_to_default", "revert_def"),
  ("hard_reboot", "hard_reboot"),
  ("soft_reboot", "soft_reboot"),
  ("start", "start"),
  ("stop", "stop"),
  ("suspend", "suspend"),
  ("resume", "resume"),
  ("rebuild", "rebuild")]

/-! ## Settings (`config/settings.py`) -/

/-- The `additional_rules` table inside `get_shortening_rules`. -/
def additionalShorteningRules : List (String × String) := [
  ("interfaces", "ifaces"),
  ("metrics", "metr"),
  ("baremetal", "bm"),
  ("gpu_baremetal_clusters", "gpu_bm_clusters"),
  ("l7_policies", "l7pols"),
  ("health_monitors", "health_mon"),
  ("members", "membs"),
  ("statuses", "stats"),
  ("ip_ranges", "iprngs"),
  ("rules", "rls"),
  ("access_rules", "accessrls"),
  ("repositories", "repos"),
  ("artifacts", "arts"),
  ("users", "usrs"),
  ("tasks", "tsks"),
  ("quotas", "qotas"),
  ("requests", "reqs"),
  ("role_assignments", "roleasgns"),
  ("billing_reservations", "billresrvs"),
  ("models", "mdls"),
  ("logs", "logs"),
  ("registry_credentials", "regcreds"),
  ("resize", "resz"),
  ("get_console", "get_con"),
  ("action", "act"),
  ("list_suitable", "ls_suit"),
  ("list_for_resize", "ls_resz"),
  ("attach", "att"),
  ("detach", "det"),
  ("upload", "upl"),
  ("list", "ls"),
  ("get", "get"),
  ("powercycle_all_servers", "pwrall_srvs"),
  ("reboot_all_servers", "rebootall_srvs"),
  ("servers", "srvs"),
  ("powercycle", "pwrcycle"),
  ("failover", "failovr"),
  ("remove", "rm"),
  ("list_candidate_ports", "ls_cand_ports"),
  ("list_connected_ports", "ls_conn_ports"),
  ("replace_connected_ports", "repl_conn_ports"),
  ("update_connected_ports", "upd_conn_ports"),
  ("copy", "cp"),
  ("change_type", "chng_type"),
  ("create_multiple", "new_multi"),
  ("refresh_secret", "refresh_secr"),
  ("acknowledge_all", "ack_all"),
  ("acknowledge_one", "ack_one"),
  ("upload_tls_certificate", "upl_tls_cert"),
  ("get_api_key", "get_apikey")]

/-- Lookup into the merged rule dict: `get_shortening_rules` builds one
dict by successive `dict.update`:
resource rules, then method rules, then the additional rules; a later
table overrides an earlier one on a shared key.  Looking additional
rules up first, then method rules, then resource rules realises exactly
that override order (each individual table has pairwise distinct keys). -/
def lookupShorteningRule (part : String) : Option String :=
  (additionalShorteningRules.lookup part).orElse fun _ =>
    (methodShorteningRules.lookup part).orElse fun _ =>
      resourceShorteningRules.lookup part

/-- Constant `MAX_TOOL_NAME_LEN` in `config/settings.py`. -/
def MAX_TOOL_NAME_LEN : Nat := 60

/-- The local `short_name_untruncated` of `generate_short_tool_name`:
split on `.`, shorten each segment through the rule table (unmapped
segments pass through), rejoin with `.`. -/
def shortNameUntruncated (originalDotName : String) : String :=
  let parts := splitStr '.' originalDotName
  let shortenedParts := parts.map fun part => (lookupShorteningRule part).getD part
  joinStr "." shortenedParts

/-- Function `generate_short_tool_name`: the rejoined shortened name, hard-truncated
to `maxLen` characters when it is longer (Python `[:max_len]` slicing). -/
def generate_short_tool_name (originalDotName : String)
    (maxLen : Nat := MAX_TOOL_NAME_LEN) : String :=
  let s := shortNameUntruncated originalDotName
  if s.length ≤ maxLen then s
  else ⟨s.data.take maxLen⟩

/-! ### Wildcard pattern matching

`get_allowed_tools_list` tests a pattern `p` against a name `n` with
`re.match(re.escape(p).replace("\\*", ".*"), n)`: every character of `p`
other than `*` is matched literally and `*` becomes `.*`; `re.match`
anchors at the start of `n` only.  `reMatchFromStart p n` decides whether
that call returns a match object: the translated regex matches some
prefix of `n`.  `globFull p n` is the both-ends-anchored variant (the
semantics of `convert_pattern_to_regex`, which wraps the same translated
regex in `^...$`). -/

/-- Does `f` hold of some suffix of the list (the list itself included)?
Used to interpret `.*`: it consumes an arbitrary prefix. -/
def anySuffix (f : List Char → Bool) : List Char → Bool
  | [] => f []
  | a :: s => f (a :: s) || anySuffix f s

/-- The `re.match` semantics of the escaped-with-`.*` pattern: does the
pattern match a prefix of the character list?  (An exhausted pattern
succeeds anywhere; `*` consumes an arbitrary prefix of the rest.) -/
def reMatchFromStart (p : List Char) : List Char → Bool :=
  match p with
  | [] => fun _ => true
  | '*' :: p' => fun s => anySuffix (fun t => reMatchFromStart p' t) s
  | c :: p' => fun s =>
    match s with
    | [] => false
    | a :: s' => a == c && reMatchFromStart p' s'

/-- The `re.fullmatch` semantics (equivalently `^...$` anchoring, as produced
by `convert_pattern_to_regex`): the pattern must consume the whole name. -/
def globFull (p : List Char) : List Char → Bool :=
  match p with
  | [] => fun s => s.isEmpty
  | '*' :: p' => fun s => anySuffix (fun t => globFull p' t) s
  | c :: p' => fun s =>
    match s with
    | [] => false
    | a :: s' => a == c && globFull p' s'

/-- The per-(pattern, name) selection test inlined in
`get_allowed_tools_list`:
`pattern == tool_name or ("*" in pattern and re.match(...))`. -/
def codePatternSelects (pattern toolName : String) : Bool :=
  pattern == toolName ||
    (pattern.data.contains '*' && reMatchFromStart pattern.data toolName.data)

/-- The matching relation asserted by the specification: exact equality,
or (for a pattern containing `*`) the glob translated with `*` matching
any characters, anchored at both the start and the end of the name. -/
def specPatternMatches (pattern toolName : String) : Bool :=
  pattern == toolName ||
    (pattern.data.contains '*' && globFull pattern.data toolName.data)

/-! ## Toolsets (`config/toolsets.py` and `domain/gcore_domain.py`) -/

/-- Table `GcoreDomainHandler.get_toolset_definitions`. -/
def domainToolsetDefinitions : List (String × List String) := [
  ("instances", [
    "cloud.instances.create", "cloud.instances.list", "cloud.instances.get",
    "cloud.instances.update", "cloud.instances.delete",
    "cloud.instances.assign_security_group", "cloud.instances.unassign_security_group",
    "cloud.instances.resize", "cloud.instances.get_console",
    "cloud.instances.add_to_placement_group", "cloud.instances.remove_from_placement_group",
    "cloud.instances.disable_port_security", "cloud.instances.enable_port_security",
    "cloud.instances.action",
    "cloud.instances.flavors.list", "cloud.instances.flavors.list_suitable",
    "cloud.instances.flavors.list_for_resize",
    "cloud.instances.interfaces.list", "cloud.instances.interfaces.attach",
    "cloud.instances.interfaces.detach",
    "cloud.instances.images.create_from_volume", "cloud.instances.images.list",
    "cloud.instances.images.get", "cloud.instances.images.update",
    "cloud.instances.images.delete", "cloud.instances.images.upload",
    "cloud.instances.metrics.list"]),
  ("baremetal", [
    "cloud.baremetal.create", "cloud.baremetal.list", "cloud.baremetal.get",
    "cloud.baremetal.update", "cloud.baremetal.delete",
    "cloud.baremetal.action", "cloud.baremetal.resize", "cloud.baremetal.get_console",
    "cloud.baremetal.assign_security_group", "cloud.baremetal.unassign_security_group",
    "cloud.baremetal.add_to_placement_group", "cloud.baremetal.remove_from_placement_group",
    "cloud.baremetal.disable_port_security", "cloud.baremetal.enable_port_security",
    "cloud.baremetal.flavors.list", "cloud.baremetal.flavors.list_suitable",
    "cloud.baremetal.interfaces.list", "cloud.baremetal.interfaces.attach",
    "cloud.baremetal.interfaces.detach",
    "cloud.baremetal.metrics.list"]),
  ("gpu", [
    "cloud.gpu_baremetal_clusters.create", "cloud.gpu_baremetal_clusters.list",
    "cloud.gpu_baremetal_clusters.get", "cloud.gpu_baremetal_clusters.update",
    "cloud.gpu_baremetal_clusters.delete",
    "cloud.gpu_baremetal_clusters.flavors.list",
    "cloud.gpu_baremetal_clusters.servers.create", "cloud.gpu_baremetal_clusters.servers.list",
    "cloud.gpu_baremetal_clusters.servers.get", "cloud.gpu_baremetal_clusters.servers.delete",
    "cloud.gpu_baremetal_clusters.images.list", "cloud.gpu_baremetal_clusters.images.get",
    "cloud.gpu_baremetal_clusters.images.update", "cloud.gpu_baremetal_clusters.images.delete"]),
  ("networking", [
    "cloud.networks.create", "cloud.networks.list", "cloud.networks.get",
    "cloud.networks.update", "cloud.networks.delete",
    "cloud.networks.subnets.create", "cloud.networks.subnets.list",
    "cloud.networks.subnets.get", "cloud.networks.subnets.update",
    "cloud.networks.subnets.delete",
    "cloud.networks.routers.create", "cloud.networks.routers.list",
    "cloud.networks.routers.get", "cloud.networks.routers.update",
    "cloud.networks.routers.delete",
    "cloud.networks.routers.attach_subnet", "cloud.networks.routers.detach_subnet",
    "cloud.floating_ips.create", "cloud.floating_ips.list", "cloud.floating_ips.get",
    "cloud.floating_ips.update", "cloud.floating_ips.delete",
    "cloud.reserved_fixed_ips.create", "cloud.reserved_fixed_ips.list",
    "cloud.reserved_fixed_ips.get", "cloud.reserved_fixed_ips.update",
    "cloud.reserved_fixed_ips.delete",
    "cloud.load_balancers.create", "cloud.load_balancers.list", "cloud.load_balancers.get",
    "cloud.load_balancers.update", "cloud.load_balancers.delete",
    "cloud.load_balancers.flavors.list",
    "cloud.load_balancers.listeners.create", "cloud.load_balancers.listeners.list",
    "cloud.load_balancers.listeners.get", "cloud.load_balancers.listeners.update",
    "cloud.load_balancers.listeners.delete",
    "cloud.load_balancers.pools.create", "cloud.load_balancers.pools.list",
    "cloud.load_balancers.pools.get", "cloud.load_balancers.pools.update",
    "cloud.load_balancers.pools.delete",
    "cloud.load_balancers.l7policies.create", "cloud.load_balancers.l7policies.list",
    "cloud.load_balancers.l7policies.get", "cloud.load_balancers.l7policies.update",
    "cloud.load_balancers.l7policies.delete"]),
  ("security", [
    "cloud.security_groups.create", "cloud.security_groups.list",
    "cloud.security_groups.get", "cloud.security_groups.update",
    "cloud.security_groups.delete",
    "cloud.security_groups.copy", "cloud.security_groups.revert_to_default",
    "cloud.security_groups.rules.create", "cloud.security_groups.rules.replace",
    "cloud.security_groups.rules.delete",
    "cloud.ssh_keys.create", "cloud.ssh_keys.list", "cloud.ssh_keys.get",
    "cloud.ssh_keys.update", "cloud.ssh_keys.delete",
    "cloud.secrets.create", "cloud.secrets.list", "cloud.secrets.get",
    "cloud.secrets.update", "cloud.secrets.delete"]),
  ("storage", [
    "cloud.volumes.create", "cloud.volumes.list", "cloud.volumes.get",
    "cloud.volumes.update", "cloud.volumes.delete",
    "cloud.volumes.resize", "cloud.volumes.change_type",
    "cloud.volumes.revert_to_last_snapshot",
    "cloud.volumes.attach_to_instance", "cloud.volumes.detach_from_instance",
    "cloud.volumes.snapshots.create", "cloud.volumes.snapshots.list",
    "cloud.volumes.snapshots.get", "cloud.volumes.snapshots.update",
    "cloud.volumes.snapshots.delete",
    "cloud.file_shares.create", "cloud.file_shares.list", "cloud.file_shares.get",
    "cloud.file_shares.update", "cloud.file_shares.delete",
    "cloud.file_shares.extend", "cloud.file_shares.get_capacity_by_region"]),
  ("management", [
    "cloud.projects.create", "cloud.projects.list", "cloud.projects.get",
    "cloud.projects.update", "cloud.projects.delete",
    "cloud.regions.list", "cloud.regions.get",
    "cloud.placement_groups.create", "cloud.placement_groups.list",
    "cloud.placement_groups.get", "cloud.placement_groups.update",
    "cloud.placement_groups.delete",
    "cloud.tasks.list", "cloud.tasks.get", "cloud.tasks.acknowledge_all",
    "cloud.tasks.acknowledge_one",
    "cloud.quotas.list", "cloud.quotas.get"]),
  ("ai", [
    "cloud.ai_clusters.create", "cloud.ai_clusters.list", "cloud.ai_clusters.get",
    "cloud.ai_clusters.update", "cloud.ai_clusters.delete",
    "cloud.inference.deployments.create", "cloud.inference.deployments.list",
    "cloud.inference.deployments.get", "cloud.inference.deployments.update",
    "cloud.inference.deployments.delete"]),
  ("containers", [
    "cloud.registries.create", "cloud.registries.list", "cloud.registries.get",
    "cloud.registries.update", "cloud.registries.delete"])]

/-- The `additional_toolsets` table inside `get_raw_toolsets`. -/
def additionalToolsets : List (String × List String) := [
  ("baremetal", [
    "cloud.baremetal.images.list",
    "cloud.baremetal.flavors.list",
    "cloud.baremetal.flavors.list_suitable",
    "cloud.baremetal.servers.create",
    "cloud.baremetal.servers.list",
    "cloud.baremetal.servers.rebuild"]),
  ("gpu_baremetal", [
    "cloud.gpu_baremetal_clusters.create",
    "cloud.gpu_baremetal_clusters.get",
    "cloud.gpu_baremetal_clusters.delete",
    "cloud.gpu_baremetal_clusters.list",
    "cloud.gpu_baremetal_clusters.rebuild",
    "cloud.gpu_baremetal_clusters.resize",
    "cloud.gpu_baremetal_clusters.powercycle_all_servers",
    "cloud.gpu_baremetal_clusters.reboot_all_servers",
    "cloud.gpu_baremetal_clusters.interfaces.list",
    "cloud.gpu_baremetal_clusters.servers.delete",
    "cloud.gpu_baremetal_clusters.servers.attach_interface",
    "cloud.gpu_baremetal_clusters.servers.detach_interface",
    "cloud.gpu_baremetal_clusters.servers.get_console",
    "cloud.gpu_baremetal_clusters.servers.powercycle",
    "cloud.gpu_baremetal_clusters.servers.reboot",
    "cloud.gpu_baremetal_clusters.flavors.list",
    "cloud.gpu_baremetal_clusters.images.upload",
    "cloud.gpu_baremetal_clusters.images.list",
    "cloud.gpu_baremetal_clusters.images.get",
    "cloud.gpu_baremetal_clusters.images.delete"]),
  ("ai_ml", [
    "cloud.inference.get_capacity_by_region",
    "cloud.inference.flavors.list",
    "cloud.inference.flavors.get",
    "cloud.inference.models.list",
    "cloud.inference.models.get",
    "cloud.inference.deployments.create",
    "cloud.inference.deployments.list",
    "cloud.inference.deployments.get",
    "cloud.inference.deployments.update",
    "cloud.inference.deployments.delete",
    "cloud.inference.deployments.get_api_key",
    "cloud.inference.deployments.start",
    "cloud.inference.deployments.stop",
    "cloud.inference.deployments.logs.list",
    "cloud.inference.registry_credentials.create",
    "cloud.inference.registry_credentials.list",
    "cloud.inference.registry_credentials.get",
    "cloud.inference.registry_credentials.replace",
    "cloud.inference.registry_credentials.delete",
    "cloud.inference.secrets.create",
    "cloud.inference.secrets.list",
    "cloud.inference.secrets.get",
    "cloud.inference.secrets.replace",
    "cloud.inference.secrets.delete"]),
  ("cleanup", [
    "cloud.secrets.delete",
    "cloud.ssh_keys.delete",
    "cloud.load_balancers.delete",
    "cloud.load_balancers.l7policies.delete",
    "cloud.load_balancers.listeners.delete",
    "cloud.load_balancers.pools.delete",
    "cloud.reserved_fixed_ips.delete",
    "cloud.networks.delete",
    "cloud.networks.subnets.delete",
    "cloud.networks.routers.delete",
    "cloud.volumes.delete",
    "cloud.floating_ips.delete",
    "cloud.security_groups.delete",
    "cloud.inference.deployments.delete",
    "cloud.placement_groups.delete",
    "cloud.registries.delete",
    "cloud.file_shares.delete",
    "cloud.gpu_baremetal_clusters.delete",
    "cloud.gpu_baremetal_clusters.servers.delete",
    "cloud.gpu_baremetal_clusters.images.delete",
    "cloud.instances.delete",
    "cloud.instances.images.delete"]),
  ("list", [
    "cloud.instances.list",
    "cloud.instances.flavors.list",
    "cloud.instances.images.list",
    "cloud.baremetal.images.list",
    "cloud.baremetal.flavors.list",
    "cloud.baremetal.servers.list",
    "cloud.gpu_baremetal_clusters.list",
    "cloud.gpu_baremetal_clusters.flavors.list",
    "cloud.gpu_baremetal_clusters.images.list",
    "cloud.networks.list",
    "cloud.networks.subnets.list",
    "cloud.networks.routers.list"])]

/-- Python `dict.update` on string-keyed dicts represented as
insertion-ordered association lists: keys of `base` stay in place with
their value overridden when `extra` also binds them, and keys new to
`extra` are appended in `extra`'s order. -/
def dictUpdate {α : Type} (base extra : List (String × α)) : List (String × α) :=
  (base.map fun kv =>
    match extra.lookup kv.1 with
    | some v => (kv.1, v)
    | none => kv) ++
  extra.filter fun kv => (base.lookup kv.1).isNone

/-- Function `get_raw_toolsets`: domain toolsets merged with the additional
toolsets, the additional table winning on shared keys. -/
def get_raw_toolsets : List (String × List String) :=
  dictUpdate domainToolsetDefinitions additionalToolsets

/-- Constant `TOOLSETS = _generate_toolsets()`: every member name of every raw
toolset passed through `generate_short_tool_name`. -/
def TOOLSETS : List (String × List String) :=
  get_raw_toolsets.map fun kv => (kv.1, kv.2.map (generate_short_tool_name ·))

/-- Constant `DEFAULT_TOOLSETS`. -/
def DEFAULT_TOOLSETS : List String := ["management", "instances"]

/-- Function `parse_unified_tool_config`: split the configuration string on
commas, trim, drop empties; entries that are keys of `TOOLSETS` are
toolset names, the rest are patterns (order preserved). -/
def parse_unified_tool_config (configStr : String) : List String × List String :=
  let entries := ((splitStr ',' configStr).map trimStr).filter (· ≠ "")
  entries.partition fun entry => (TOOLSETS.lookup entry).isSome

/-- Function `get_unified_tool_config`: the environment variable is parsed only
when it is set to a non-empty (truthy) string; otherwise both lists are
empty.  `env` models `os.getenv(UNIFIED_TOOLS_ENV_VAR)`. -/
def get_unified_tool_config (env : Option String) : List String × List String :=
  match env with
  | some s => if s.data.isEmpty then ([], []) else parse_unified_tool_config s
  | none => ([], [])

/-- Order-preserving first-occurrence deduplication
(`list(dict.fromkeys(...))`). -/
def dedupFirst (l : List String) : List String :=
  l.foldl (fun acc x => if acc.contains x then acc else acc ++ [x]) []

/-- The pattern half of `get_allowed_tools_list`: when pattern filters
exist and available tools were supplied (both truthy), keep every
available full name selected by some pattern (first match
short-circuits) and shorten the kept names. -/
def patternMatchedTools (patternFilters avail : List String) : List String :=
  if !patternFilters.isEmpty && !avail.isEmpty then
    (avail.filter fun toolName =>
      patternFilters.any fun pattern => codePatternSelects pattern toolName).map
      (generate_short_tool_name ·)
  else []

/-- Function `get_allowed_tools_list`.  Here `env` models the `GCORE_TOOLS` environment
variable, `allAvailableTools` the optional full-name list argument. -/
def get_allowed_tools_list (env : Option String)
    (allAvailableTools : Option (List String) := none) : List String :=
  let cfg := get_unified_tool_config env
  let toolsetNames :=
    if cfg.1.isEmpty && cfg.2.isEmpty && env.isNone then DEFAULT_TOOLSETS else cfg.1
  let toolsetTools :=
    toolsetNames.foldl (fun acc n =>
      match TOOLSETS.lookup n with
      | some tools => acc ++ tools
      | none => acc) []
  let toolsetTools := dedupFirst toolsetTools
  dedupFirst (toolsetTools ++
    patternMatchedTools cfg.2 (allAvailableTools.getD []))

/-! ## Theorems on name shortening and tool selection -/

/-- Claim C1.  The pattern-selection step of `get_allowed_tools_list`
tests patterns with `re.match` and no `$` anchor, so a pattern containing
`*` also selects names of which the translated glob only matches a
prefix: `*.get` selects `cloud.instances.get_console` (which the
selection then shortens and returns), although under the
anchored-at-both-ends semantics stated by the claim — the semantics of
the repository's own `convert_pattern_to_regex` — that pattern does not
match that name. -/
theorem c1_pattern_match_not_end_anchored :
    codePatternSelects "*.get" "cloud.instances.get_console" = true ∧
    specPatternMatches "*.get" "cloud.instances.get_console" = false ∧
    get_allowed_tools_list (some "*.get") (some ["cloud.instances.get_console"]) =
      ["cloud.insts.get_con"] := by
  refine ⟨by decide, by decide, by decide⟩

/-- When no pattern filters were configured, the pattern half of the
selection contributes nothing, whatever the available-tool list is. -/
theorem patternMatchedTools_nil (avail : List String) :
    patternMatchedTools [] avail = [] := rfl

/-- The available-tool argument is irrelevant to `get_allowed_tools_list`
whenever the configuration yields no pattern filters. -/
theorem get_allowed_tools_list_no_patterns (env : Option String)
    (avail : Option (List String))
    (h : (get_unified_tool_config env).2 = []) :
    get_allowed_tools_list env avail = get_allowed_tools_list env none := by
  simp only [get_allowed_tools_list]
  rw [h, patternMatchedTools_nil, patternMatchedTools_nil]

/-- Claim C6.  When the configuration variable is absent,
`get_allowed_tools_list` falls back to the default toolsets
(`management` then `instances`); when it is present but empty, the
selection is exactly empty; the two results differ. -/
theorem c6_absent_env_defaults_empty_env_empty (avail : Option (List String)) :
    get_allowed_tools_list none avail =
      dedupFirst (((TOOLSETS.lookup "management").getD []) ++
        ((TOOLSETS.lookup "instances").getD [])) ∧
    get_allowed_tools_list (some "") avail = [] ∧
    get_allowed_tools_list none avail ≠ get_allowed_tools_list (some "") avail := by
  have h1 := get_allowed_tools_list_no_patterns none avail rfl
  have h2 := get_allowed_tools_list_no_patterns (some "") avail rfl
  rw [h1, h2]
  refine ⟨by decide, by decide, by decide⟩

/-- Witness for C6 at a concrete available-tool list. -/
theorem c6_witness :
    get_allowed_tools_list none (some ["cloud.instances.create"]) ≠
      get_allowed_tools_list (some "") (some ["cloud.instances.create"]) ∧
    get_allowed_tools_list (some "") (some ["cloud.instances.create"]) = [] :=
  ⟨(c6_absent_env_defaults_empty_env_empty (some ["cloud.instances.create"])).2.2,
   (c6_absent_env_defaults_empty_env_empty (some ["cloud.instances.create"])).2.1⟩

/-- Claim C9.  The shortened tool name never exceeds
`MAX_TOOL_NAME_LEN = 60` characters; the segment-wise-shortened rejoined
string is returned unchanged when it fits and is hard-truncated to
exactly 60 characters otherwise; repeated calls agree. -/
theorem c9_shorten_bounded_and_deterministic (name : String) :
    (generate_short_tool_name name).length ≤ MAX_TOOL_NAME_LEN ∧
    ((shortNameUntruncated name).length ≤ MAX_TOOL_NAME_LEN →
      generate_short_tool_name name = shortNameUntruncated name) ∧
    (MAX_TOOL_NAME_LEN < (shortNameUntruncated name).length →
      (generate_short_tool_name name).length = MAX_TOOL_NAME_LEN) ∧
    generate_short_tool_name name = generate_short_tool_name name := by
  have hdef : generate_short_tool_name name =
      if (shortNameUntruncated name).length ≤ MAX_TOOL_NAME_LEN
      then shortNameUntruncated name
      else ⟨(shortNameUntruncated name).data.take MAX_TOOL_NAME_LEN⟩ := rfl
  by_cases h : (shortNameUntruncated name).length ≤ MAX_TOOL_NAME_LEN
  · rw [hdef, if_pos h]
    exact ⟨h, fun _ => rfl, fun hlt => absurd hlt (not_lt.mpr h), rfl⟩
  · rw [hdef, if_neg h]
    have hdata : MAX_TOOL_NAME_LEN ≤ (shortNameUntruncated name).data.length := by
      have : ¬ (shortNameUntruncated name).data.length ≤ MAX_TOOL_NAME_LEN := h
      omega
    have hlen : (String.mk ((shortNameUntruncated name).data.take MAX_TOOL_NAME_LEN)).length
        = MAX_TOOL_NAME_LEN := by
      show ((shortNameUntruncated name).data.take MAX_TOOL_NAME_LEN).length = _
      rw [List.length_take]
      omega
    exact ⟨le_of_eq hlen, fun hle => absurd hle h, fun _ => hlen, rfl⟩

/-- Witness for C9 at concrete inputs: a short name is returned
unchanged, and a name whose shortened form is longer than 60 characters
is truncated to exactly 60. -/
theorem c9_witness :
    (generate_short_tool_name "cloud.instances.create").length ≤ MAX_TOOL_NAME_LEN ∧
    generate_short_tool_name "cloud.instances.create" =
      shortNameUntruncated "cloud.instances.create" ∧
    (generate_short_tool_name
      "cloud.astonishingly_long_resource_segment_without_any_rule.another_very_long_segment.create").length
      = MAX_TOOL_NAME_LEN :=
  ⟨(c9_shorten_bounded_and_deterministic "cloud.instances.create").1,
   (c9_shorten_bounded_and_deterministic "cloud.instances.create").2.1 (by decide),
   (c9_shorten_bounded_and_deterministic
      "cloud.astonishingly_long_resource_segment_without_any_rule.another_very_long_segment.create").2.2.1
      (by decide)⟩

/-- Claim C10.  The merged toolset table keeps only the additional
definition of `baremetal`: `get_raw_toolsets` maps `baremetal` to
exactly the six additional method names, and every one of the domain
handler's twenty `baremetal` entries that is absent from that
six-element list is also absent (in shortened form) from the `baremetal`
entry of the generated `TOOLSETS` table. -/
theorem c10_baremetal_additional_overrides_domain :
    get_raw_toolsets.lookup "baremetal" =
      some ["cloud.baremetal.images.list", "cloud.baremetal.flavors.list",
            "cloud.baremetal.flavors.list_suitable", "cloud.baremetal.servers.create",
            "cloud.baremetal.servers.list", "cloud.baremetal.servers.rebuild"] ∧
    ∀ n ∈ (domainToolsetDefinitions.lookup "baremetal").getD [],
      n ∉ (additionalToolsets.lookup "baremetal").getD [] →
        generate_short_tool_name n ∉ (TOOLSETS.lookup "baremetal").getD [] := by
  constructor
  · rfl
  · decide

/-- Witness for C10: the domain handler's `cloud.baremetal.update` is
not selectable through the merged `baremetal` toolset. -/
theorem c10_witness :
    generate_short_tool_name "cloud.baremetal.update" ∉
      (TOOLSETS.lookup "baremetal").getD [] :=
  c10_baremetal_additional_overrides_domain.2 "cloud.baremetal.update"
    (by decide) (by decide)

/-! ## JSON-schema values (`core/schema.py` data model)

Python builds schemas as `dict[str, Any]`; they are modelled as
insertion-ordered association lists of JSON-like values. -/

/-- A JSON-like value as produced by the schema converter.  Float
literals are carried as their display text; no arithmetic is done on
them. -/
inductive JVal where
  | s (v : String)
  | b (v : Bool)
  | i (v : Int)
  | fl (text : String)
  | arr (vs : List JVal)
  | obj (fields : List (String × JVal))

/-- A schema fragment: a Python dict in insertion order. -/
abbrev Schema := List (String × JVal)

/-- Python dict assignment `d[k] = v`: replace the binding in place when
the key is present (Python dict keys are unique, so the first occurrence
is the binding), append otherwise. -/
def setEntry {α : Type} : List (String × α) → String → α → List (String × α)
  | [], k, v => [(k, v)]
  | kv :: rest, k, v =>
    if kv.1 == k then (k, v) :: rest else kv :: setEntry rest k v

/-- Python `k in d`. -/
def hasEntry {α : Type} (l : List (String × α)) (k : String) : Bool :=
  (l.lookup k).isSome

/-- A scalar allowed inside `typing.Literal[...]`. -/
inductive LitVal where
  | s (v : String)
  | i (v : Int)
  | b (v : Bool)
  | fl (text : String)

/-- Python `repr` of a literal scalar, used in the enum description. -/
def litRepr : LitVal → String
  | .s v => "'" ++ v ++ "'"
  | .i v => toString v
  | .b true => "True"
  | .b false => "False"
  | .fl text => text

/-- Inject a literal scalar into the schema value universe (the enum
values are emitted verbatim). -/
def litToJVal : LitVal → JVal
  | .s v => .s v
  | .i v => .i v
  | .b v => .b v
  | .fl text => .fl text

/-! ## Python type annotations (`core/schema.py` input universe)

`PyType` is the closed universe of annotation shapes distinguished by
`convert_param_type_to_schema_type`; each constructor corresponds to one
branch of the source function.  Union argument lists distinguish the
null/unset markers (`type(None)` and the SDK's `NotGiven` sentinel) from
proper member types. -/

mutual
inductive PyType where
  | int
  | float
  | bool
  | str
  | anyT
  | noneT
  | lit (vals : List LitVal)
  | union (args : List UMember)
  | required (t : PyType)
  | notRequired (t : PyType)
  | typedDict (name : String) (fields : List (String × PyType))
      (requiredKeys : List String) (doc : String)
  | seq (elem : PyType)
  | mapping (value : PyType)
  | pydModel (name : String) (doc : String) (exported : Option Schema)
  | plainClass (name : String) (annots : List (String × PyType)) (doc : String)
  | unknownType (reprText : String)

inductive UMember where
  | noneArg
  | notGivenArg
  | ty (t : PyType)
end

/-- The proper (non-`None`, non-`NotGiven`) member types of a union
argument list, in order. -/
def stripMembers : List UMember → List PyType
  | [] => []
  | .noneArg :: ms => stripMembers ms
  | .notGivenArg :: ms => stripMembers ms
  | .ty t :: ms => t :: stripMembers ms

/-- Test `type(None) in args or NotGiven in args`. -/
def isOptionalMembers (ms : List UMember) : Bool :=
  ms.any fun m =>
    match m with
    | .noneArg => true
    | .notGivenArg => true
    | .ty _ => false

/-- The name `getattr(t, "__name__")` when the Python value has one. -/
def pyTypeDunderName : PyType → Option String
  | .int => some "int"
  | .float => some "float"
  | .bool => some "bool"
  | .str => some "str"
  | .anyT => none
  | .noneT => some "NoneType"
  | .lit _ => none
  | .union _ => none
  | .required _ => none
  | .notRequired _ => none
  | .typedDict n _ _ _ => some n
  | .seq _ => some "list"
  | .mapping _ => some "dict"
  | .pydModel n _ _ => some n
  | .plainClass n _ _ => some n
  | .unknownType _ => none

mutual
/-- The value `getattr(t, "__name__", str(t))`: the display name used in
synthesized descriptions. -/
def pyDisplayName : PyType → String
  | .int => "int"
  | .float => "float"
  | .bool => "bool"
  | .str => "str"
  | .anyT => "typing.Any"
  | .noneT => "NoneType"
  | .lit vals => "typing.Literal[" ++ joinStr ", " (vals.map litRepr) ++ "]"
  | .union ms => "typing.Union[" ++ joinStr ", " (memberDisplayNames ms) ++ "]"
  | .required t => "typing.Required[" ++ pyDisplayName t ++ "]"
  | .notRequired t => "typing.NotRequired[" ++ pyDisplayName t ++ "]"
  | .typedDict n _ _ _ => n
  | .seq _ => "list"
  | .mapping _ => "dict"
  | .pydModel n _ _ => n
  | .plainClass n _ _ => n
  | .unknownType r => r

def memberDisplayNames : List UMember → List String
  | [] => []
  | .noneArg :: ms => "NoneType" :: memberDisplayNames ms
  | .notGivenArg :: ms => "NotGiven" :: memberDisplayNames ms
  | .ty t :: ms => pyDisplayName t :: memberDisplayNames ms
end

/-! ## Domain handler tables consumed by the converter
(`domain/gcore_domain.py`) -/

/-- Set `GCORE_SPECIAL_PARAMETERS`. -/
def GCORE_SPECIAL_PARAMETERS : List String :=
  ["volumes", "interfaces", "security_groups", "flavors", "networks",
   "instances", "projects", "regions"]

/-- Predicate `GcoreDomainHandler.is_special_parameter`. -/
def is_special_parameter (paramName : String) : Bool :=
  GCORE_SPECIAL_PARAMETERS.contains paramName

/-- Table `GcoreDomainHandler.get_parameter_description`. -/
def get_parameter_description (paramName : String)
    (baseDescription : String) : String :=
  if paramName == "volumes" then
    "List of volume configurations. Each item can define a volume from an image, snapshot, or refer to an existing volume. Example for a boot volume from image: `[\x7b\"source\": \"image\", \"image_id\": \"...\", \"boot_index\": 0, \"size\": 50\x7d]`. Example for an existing volume: `[\x7b\"id\": \"...\"\x7d]`."
  else if paramName == "interfaces" then
    "List of network interface configurations. Example: `[\x7b\"type\": \"external\", \"network_id\": \"...\"\x7d]`"
  else if paramName == "security_groups" then
    "List of security group UUIDs. Example: `[\"<sg_uuid1>\", \"<sg_uuid2>\"]`"
  else baseDescription

/-- Table `GcoreDomainHandler.get_parameter_examples`. -/
def get_parameter_examples (paramName : String) : List JVal :=
  if paramName == "volumes" then
    [.arr [.obj [("source", .s "image"), ("image_id", .s "<image_uuid>"),
                 ("boot_index", .i 0), ("size", .i 50)]],
     .arr [.obj [("id", .s "<existing_volume_uuid>")]]]
  else if paramName == "interfaces" then
    [.arr [.obj [("type", .s "external"), ("network_id", .s "<network_uuid>")]],
     .arr [.obj [("type", .s "internal"), ("subnet_id", .s "<subnet_uuid>"),
                 ("security_groups", .arr [.s "<sg_uuid>"])]]]
  else if paramName == "security_groups" then
    [.arr [.s "<sg_uuid1>", .s "<sg_uuid2>"]]
  else []

/-- Table `GcoreDomainHandler.get_union_type_description_enhancement`. -/
def get_union_type_description_enhancement (paramName : String)
    (baseDescription : String) : String :=
  if paramName == "volumes" then
    baseDescription ++
      ". Example for a boot volume: `\x7b\"source\": \"image\", \"image_id\": \"...\", \"boot_index\": 0, \"size\": 50\x7d`"
  else baseDescription

/-- Set `GcoreDomainHandler.get_json_conversion_parameters`. -/
def get_json_conversion_parameters : List String :=
  ["volumes", "interfaces", "security_groups"]

/-! ## TypedDict docstring field parser
(`_parse_typeddict_field_docstrings` in `core/schema.py`) -/

/-- Python `stripped.split(":", 1)[1]`: the text after the first colon, when a
colon is present. -/
def afterFirstColon : List Char → Option (List Char)
  | [] => none
  | c :: rest => if c == ':' then some rest else afterFirstColon rest

/-- First element of `doc.split("\n\n")`: the text up to the first blank
line separator. -/
def takeUntilDoubleNewline : List Char → List Char
  | [] => []
  | '\n' :: '\n' :: _ => []
  | c :: rest => c :: takeUntilDoubleNewline rest

/-- Parser state: docs accumulated so far, the field whose block is
open, and that block's collected lines. -/
structure DocParseState where
  docs : List (String × String)
  currentField : Option String
  currentDocLines : List String

/-- Save the open block (`field_docs[current_field] = ' '.join(...)`)
when both a field and collected lines exist. -/
def flushFieldDoc (st : DocParseState) : List (String × String) :=
  match st.currentField with
  | some f =>
    if st.currentDocLines.isEmpty then st.docs
    else setEntry st.docs f (trimStr (joinStr " " st.currentDocLines))
  | none => st.docs

/-- One line of the docstring parser loop. -/
def fieldDocStep (fieldNames : List String) (st : DocParseState)
    (line : String) : DocParseState :=
  let stripped := trimStr line
  if stripped.data.isEmpty then
    { docs := flushFieldDoc st, currentField := none, currentDocLines := [] }
  else
    match fieldNames.find? fun fn =>
        leadsWith (fn ++ ":").data stripped.data ||
        leadsWith (fn ++ " (").data stripped.data with
    | some fn =>
      let docs := flushFieldDoc st
      let descPart :=
        match afterFirstColon stripped.data with
        | some rest => trimStr ⟨rest⟩
        | none => ""
      { docs := docs, currentField := some fn,
        currentDocLines := if descPart.data.isEmpty then [] else [descPart] }
    | none =>
      match st.currentField with
      | some _ => { st with currentDocLines := st.currentDocLines ++ [stripped] }
      | none => st

/-- Function `_parse_typeddict_field_docstrings`. -/
def parseFieldDocstrings (classDocstring : String)
    (fieldNames : List String) : List (String × String) :=
  if classDocstring.data.isEmpty then []
  else
    let lines := splitStr '\n' classDocstring
    let final := lines.foldl (fieldDocStep fieldNames)
      { docs := [], currentField := none, currentDocLines := [] }
    flushFieldDoc final

/-- Insert into an ascending list (Python `sorted`, built stably). -/
def insertSorted (x : String) : List String → List String
  | [] => [x]
  | y :: ys => if x < y then x :: y :: ys else y :: insertSorted x ys

/-- Ascending sort of strings. -/
def sortStrings (l : List String) : List String := l.foldr insertSorted []

/-! ## The type-to-schema converter
(`convert_param_type_to_schema_type` in `core/schema.py`) -/

/-- Set `required_keys_set` after the final loop: `__required_keys__` plus
every field whose hint is `Required[...]`-wrapped. -/
def typedDictRequiredKeys (fields : List (String × PyType))
    (requiredKeys : List String) : List String :=
  fields.foldl (fun acc kv =>
    match kv.2 with
    | .required _ => if acc.contains kv.1 then acc else acc ++ [kv.1]
    | _ => acc) requiredKeys

/-- First paragraph of a docstring, stripped
(`doc.split("\n\n")[0].strip()`). -/
def firstDocParagraph (doc : String) : String :=
  trimStr ⟨takeUntilDoubleNewline doc.data⟩

/-- First paragraph of `raw_doc` unless it is missing or starts with
`"dict() ->"`, else the given fallback text. -/
def docOrFallback (doc fallback : String) : String :=
  if !doc.data.isEmpty && !(leadsWith "dict() ->".data doc.data) then
    firstDocParagraph doc
  else fallback

mutual
/-- Function `convert_param_type_to_schema_type(param_type, param_name)`:
translate one type annotation into a JSON-schema fragment.  Branches
appear in the source's order; constructor dispatch makes them disjoint. -/
def convert_param_type_to_schema_type (t : PyType) (paramName : String) :
    Schema :=
  match t with
  | .required inner =>
    let innerSchema := convert_param_type_to_schema_type inner paramName
    match innerSchema.lookup "description" with
    | some (.s d) =>
      setEntry innerSchema "description" (.s (trimStr (d ++ " (explicitly required)")))
    | some _ =>
      -- a non-string description never occurs in converter output
      setEntry innerSchema "description" (.s (trimStr " (explicitly required)"))
    | none => setEntry innerSchema "description" (.s "(explicitly required)")
  | .notRequired inner => convert_param_type_to_schema_type inner paramName
  | .int => [("type", .s "integer")]
  | .float => [("type", .s "number")]
  | .bool => [("type", .s "boolean")]
  | .str => [("type", .s "string")]
  | .anyT =>
    [("type", .s "object"),
     ("description", .s "Any type, can be a flexible JSON object or an appropriate primitive.")]
  | .noneT => [("type", .s "null")]
  | .lit vals =>
    let schemaType :=
      match vals with
      | [] => "string"
      | .b _ :: _ => "boolean"
      | .i _ :: _ => "integer"
      | .fl _ :: _ => "number"
      | .s _ :: _ => "string"
    let enumDesc := "Must be one of: " ++ joinStr ", " (vals.map litRepr)
    [("type", .s schemaType), ("enum", .arr (vals.map litToJVal)),
     ("description", .s enumDesc)]
  | .union ms =>
    let nonNone := stripMembers ms
    let isOpt := isOptionalMembers ms
    if nonNone.isEmpty then [("type", .s "null")]
    else if nonNone.length == 1 then
      let schema := convertFirstTy ms paramName
      if isOpt then
        match schema.lookup "description" with
        | some (.s d) => setEntry schema "description" (.s (d ++ " (optional)"))
        | some _ =>
          -- a non-string description never occurs in converter output
          setEntry schema "description" (.s " (optional)")
        | none => setEntry schema "description" (.s "Optional")
      else schema
    else
      let oneOf := convertStripped ms paramName
      let oneOf := if isOpt then oneOf ++ [JVal.obj [("type", .s "null")]] else oneOf
      let unionDesc := "One of the following types: " ++
        joinStr ", " (nonNone.map pyDisplayName) ++
        (if isOpt then " or null" else "")
      let finalSchema : Schema := [("oneOf", .arr oneOf), ("description", .s unionDesc)]
      if is_special_parameter paramName then
        setEntry finalSchema "description"
          (.s (get_union_type_description_enhancement paramName unionDesc))
      else finalSchema
  | .typedDict tdName fields requiredKeys doc =>
    let fieldDocs := parseFieldDocstrings doc (fields.map (·.1))
    let reqFinal := typedDictRequiredKeys fields requiredKeys
    let properties := convertFields fields fieldDocs
    let schema0 : Schema := [("type", .s "object"), ("properties", .obj properties)]
    let schema1 :=
      if reqFinal.isEmpty then schema0
      else setEntry schema0 "required" (.arr ((sortStrings reqFinal).map JVal.s))
    let mainDoc := firstDocParagraph doc
    let descr :=
      if !mainDoc.data.isEmpty &&
          !(fields.any fun kv => hasSub (kv.1 ++ ":").data mainDoc.data) then
        "Object of type " ++ tdName ++ ": " ++ mainDoc
      else "Object of type " ++ tdName
    setEntry schema1 "description" (.s descr)
  | .seq elem =>
    let itemParamName := if !paramName.data.isEmpty then paramName ++ "_item" else "item"
    let itemsSchema := convert_param_type_to_schema_type elem itemParamName
    let arrayDescription := "Array of " ++ pyDisplayName elem
    let finalSchema : Schema :=
      [("type", .s "array"), ("items", .obj itemsSchema),
       ("description", .s arrayDescription)]
    if is_special_parameter paramName then
      let finalSchema := setEntry finalSchema "description"
        (.s (get_parameter_description paramName arrayDescription))
      let domainExamples := get_parameter_examples paramName
      if !domainExamples.isEmpty then
        setEntry finalSchema "examples" (.arr domainExamples)
      else finalSchema
    else finalSchema
  | .mapping valueType =>
    let valueSchema := convert_param_type_to_schema_type valueType
      (if !paramName.data.isEmpty then paramName ++ "_value" else "")
    [("type", .s "object"), ("additionalProperties", .obj valueSchema),
     ("description", .s ("Dictionary with string keys and values of type " ++
       pyDisplayName valueType))]
  | .pydModel mName doc exported =>
    match exported with
    | some js =>
      let js1 := if hasEntry js "type" then js else setEntry js "type" (.s "object")
      if hasEntry js1 "description" then js1
      else setEntry js1 "description" (.s (docOrFallback doc ("Pydantic model: " ++ mName)))
    | none =>
      [("type", .s "object"),
       ("description", .s (docOrFallback doc ("Pydantic model: " ++ mName)))]
  | .plainClass cName annots doc =>
    if !annots.isEmpty then
      let properties := convertAnnots annots
      let schema0 : Schema := [("type", .s "object"), ("properties", .obj properties)]
      setEntry schema0 "description" (.s (docOrFallback doc ("Object of type " ++ cName)))
    else
      [("type", .s "object"),
       ("description", .s (docOrFallback doc ("Object of type " ++ cName)))]
  | .unknownType reprText =>
    let typeRepr :=
      if leadsWith "<class '".data reprText.data &&
          leadsWith "'>".data.reverse reprText.data.reverse then
        String.mk ((reprText.data.drop 8).take ((reprText.data.drop 8).length - 2))
      else reprText
    [("type", .s "object"),
     ("description", .s ("Data of type " ++ typeRepr ++
       " (schema generation may be incomplete for this type)"))]

/-- Translate the first proper member of a union argument list: this is
the schema of `non_none_args[0]` in the single-member branch.  (The
empty case cannot be reached from that branch.) -/
def convertFirstTy (ms : List UMember) (paramName : String) : Schema :=
  match ms with
  | [] => [("type", .s "null")]
  | .ty t :: _ => convert_param_type_to_schema_type t paramName
  | .noneArg :: rest => convertFirstTy rest paramName
  | .notGivenArg :: rest => convertFirstTy rest paramName

/-- Schemas of all proper union members, each translated under the
derived contextual name `getattr(arg, "__name__", param_name)`. -/
def convertStripped (ms : List UMember) (paramName : String) : List JVal :=
  match ms with
  | [] => []
  | .noneArg :: rest => convertStripped rest paramName
  | .notGivenArg :: rest => convertStripped rest paramName
  | .ty t :: rest =>
    JVal.obj (convert_param_type_to_schema_type t
      ((pyTypeDunderName t).getD paramName)) :: convertStripped rest paramName

/-- The `properties` loop of the TypedDict branch: translate each field
(with any `Required`/`NotRequired` wrapper stripped) under the field's
name, then apply the parsed-docstring description override. -/
def convertFields (fields : List (String × PyType))
    (fieldDocs : List (String × String)) : List (String × JVal) :=
  match fields with
  | [] => []
  | (fieldName, hint) :: rest =>
    let fieldSchema :=
      match hint with
      | .required inner => convert_param_type_to_schema_type inner fieldName
      | .notRequired inner => convert_param_type_to_schema_type inner fieldName
      | other => convert_param_type_to_schema_type other fieldName
    let fieldSchema :=
      match fieldDocs.lookup fieldName with
      | some d => setEntry fieldSchema "description" (.s d)
      | none =>
        if hasEntry fieldSchema "description" then fieldSchema
        else setEntry fieldSchema "description" (.s ("Field: " ++ fieldName))
    (fieldName, JVal.obj fieldSchema) :: convertFields rest fieldDocs

/-- The `properties` loop of the annotated-class branch. -/
def convertAnnots (annots : List (String × PyType)) : List (String × JVal) :=
  match annots with
  | [] => []
  | (attrName, attrType) :: rest =>
    (attrName, JVal.obj (convert_param_type_to_schema_type attrType attrName)) ::
      convertAnnots rest
end

/-! ## Dict-model lemmas -/

/-- Writing a key leaves every other key's binding unchanged. -/
theorem lookup_setEntry_ne {α : Type} (l : List (String × α)) (k k' : String)
    (v : α) (h : k' ≠ k) : ((setEntry l k v).lookup k') = l.lookup k' := by
  induction l with
  | nil =>
    simp only [setEntry, List.lookup]
    rw [beq_eq_false_iff_ne.mpr h]
  | cons kv rest ih =>
    by_cases hk : kv.1 == k
    · have hkeq : kv.1 = k := eq_of_beq hk
      simp only [setEntry, hk, if_pos, List.lookup]
      rw [beq_eq_false_iff_ne.mpr h, beq_eq_false_iff_ne.mpr (hkeq ▸ h)]
    · simp only [setEntry, hk, Bool.false_eq_true, if_false, List.lookup]
      cases hkv : k' == kv.1 with
      | true => rfl
      | false => exact ih

/-- Writing a key makes it present with the written value. -/
theorem lookup_setEntry_self {α : Type} (l : List (String × α)) (k : String)
    (v : α) : ((setEntry l k v).lookup k) = some v := by
  induction l with
  | nil => simp [setEntry, List.lookup]
  | cons kv rest ih =>
    by_cases hk : kv.1 == k
    · simp [setEntry, hk, List.lookup]
    · have : (k == kv.1) = false := by
        cases hkk : k == kv.1 with
        | false => rfl
        | true =>
          exfalso
          exact hk (by rw [eq_of_beq hkk]; exact beq_self_eq_true kv.1)
      simp only [setEntry, hk, Bool.false_eq_true, if_false, List.lookup, this]
      exact ih

/-- Presence of a key is unaffected by writing a different key. -/
theorem hasEntry_setEntry_ne {α : Type} (l : List (String × α)) (k k' : String)
    (v : α) (h : k' ≠ k) : hasEntry (setEntry l k v) k' = hasEntry l k' := by
  unfold hasEntry
  rw [lookup_setEntry_ne l k k' v h]

theorem hasEntry_setEntry_self {α : Type} (l : List (String × α)) (k : String)
    (v : α) : hasEntry (setEntry l k v) k = true := by
  unfold hasEntry
  rw [lookup_setEntry_self l k v]
  rfl

/-! ## Which annotations yield a fragment without a `type` key

The only branch of the converter that emits no `type` key is the
multi-member union branch (it emits `oneOf`).  A fragment is returned
through that branch exactly when the annotation, after peeling
`Required`/`NotRequired` wrappers and single-member-union indirection,
is a union with at least two proper members. -/

mutual
/-- Does translating this annotation end in the multi-member union
branch (hence produce `oneOf` and no `type` key)? -/
def multiUnionHead : PyType → Bool
  | .required t => multiUnionHead t
  | .notRequired t => multiUnionHead t
  | .union ms =>
    if 2 ≤ (stripMembers ms).length then true else firstTyMulti ms
  | .int => false
  | .float => false
  | .bool => false
  | .str => false
  | .anyT => false
  | .noneT => false
  | .lit _ => false
  | .typedDict _ _ _ _ => false
  | .seq _ => false
  | .mapping _ => false
  | .pydModel _ _ _ => false
  | .plainClass _ _ _ => false
  | .unknownType _ => false

/-- Value of `multiUnionHead` at the first proper member of a union argument
list; `false` when there is none. -/
def firstTyMulti : List UMember → Bool
  | [] => false
  | .ty t :: _ => multiUnionHead t
  | .noneArg :: ms => firstTyMulti ms
  | .notGivenArg :: ms => firstTyMulti ms
end

theorem firstTyMulti_of_strip_nil :
    ∀ ms : List UMember, stripMembers ms = [] → firstTyMulti ms = false := by
  intro ms
  induction ms with
  | nil => intro _; rfl
  | cons m tail ih =>
    intro h
    cases m with
    | noneArg => simp only [stripMembers] at h; simp only [firstTyMulti]; exact ih h
    | notGivenArg => simp only [stripMembers] at h; simp only [firstTyMulti]; exact ih h
    | ty t => simp [stripMembers] at h

theorem convertFirstTy_strip :
    ∀ (ms : List UMember) (t : PyType) (rest : List PyType) (pn : String),
      stripMembers ms = t :: rest →
      convertFirstTy ms pn = convert_param_type_to_schema_type t pn := by
  intro ms
  induction ms with
  | nil => intro t rest pn h; simp [stripMembers] at h
  | cons m tail ih =>
    intro t rest pn h
    cases m with
    | noneArg => simp only [stripMembers] at h; simp only [convertFirstTy]; exact ih t rest pn h
    | notGivenArg => simp only [stripMembers] at h; simp only [convertFirstTy]; exact ih t rest pn h
    | ty t' =>
      simp only [stripMembers, List.cons.injEq] at h
      simp only [convertFirstTy, h.1]

theorem firstTyMulti_strip :
    ∀ (ms : List UMember) (t : PyType) (rest : List PyType),
      stripMembers ms = t :: rest → firstTyMulti ms = multiUnionHead t := by
  intro ms
  induction ms with
  | nil => intro t rest h; simp [stripMembers] at h
  | cons m tail ih =>
    intro t rest h
    cases m with
    | noneArg => simp only [stripMembers] at h; simp only [firstTyMulti]; exact ih t rest h
    | notGivenArg => simp only [stripMembers] at h; simp only [firstTyMulti]; exact ih t rest h
    | ty t' =>
      simp only [stripMembers, List.cons.injEq] at h
      simp only [firstTyMulti, h.1]

theorem sizeOf_strip_head :
    ∀ (ms : List UMember) (t : PyType) (rest : List PyType),
      stripMembers ms = t :: rest → sizeOf t < sizeOf ms := by
  intro ms
  induction ms with
  | nil => intro t rest h; simp [stripMembers] at h
  | cons m tail ih =>
    intro t rest h
    cases m with
    | noneArg =>
      simp only [stripMembers] at h
      have := ih t rest h
      simp only [List.cons.sizeOf_spec]
      omega
    | notGivenArg =>
      simp only [stripMembers] at h
      have := ih t rest h
      simp only [List.cons.sizeOf_spec]
      omega
    | ty t' =>
      simp only [stripMembers, List.cons.injEq] at h
      have : sizeOf t = sizeOf t' := by rw [h.1]
      simp only [List.cons.sizeOf_spec, UMember.ty.sizeOf_spec]
      omega

/-- Fuel-indexed form of the `type`-key characterization. -/
theorem hasType_convert_aux :
    ∀ (n : Nat) (t : PyType) (pn : String), sizeOf t ≤ n →
      hasEntry (convert_param_type_to_schema_type t pn) "type" =
        !(multiUnionHead t) := by
  intro n
  induction n with
  | zero =>
    intro t pn h
    exfalso
    cases t <;> simp at h
  | succ n ih =>
    intro t pn h
    cases t with
    | int => rfl
    | float => rfl
    | bool => rfl
    | str => rfl
    | anyT => rfl
    | noneT => rfl
    | lit vals => rfl
    | unknownType r => rfl
    | mapping v => rfl
    | required inner =>
      have hsz : sizeOf inner ≤ n := by
        simp only [PyType.required.sizeOf_spec] at h; omega
      have ihi := ih inner pn hsz
      simp only [convert_param_type_to_schema_type, multiUnionHead]
      cases hd : (convert_param_type_to_schema_type inner pn).lookup "description" with
      | none =>
        rw [hasEntry_setEntry_ne _ _ _ _ (by decide)]
        exact ihi
      | some v =>
        cases v <;> (rw [hasEntry_setEntry_ne _ _ _ _ (by decide)]; exact ihi)
    | notRequired inner =>
      have hsz : sizeOf inner ≤ n := by
        simp only [PyType.notRequired.sizeOf_spec] at h; omega
      have ihi := ih inner pn hsz
      simpa only [convert_param_type_to_schema_type, multiUnionHead] using ihi
    | typedDict nm fields reqKeys doc =>
      simp only [convert_param_type_to_schema_type, multiUnionHead, Bool.not_false]
      rw [hasEntry_setEntry_ne _ _ _ _ (by decide)]
      split
      · rfl
      · rw [hasEntry_setEntry_ne _ _ _ _ (by decide)]; rfl
    | seq elem =>
      simp only [convert_param_type_to_schema_type, multiUnionHead, Bool.not_false]
      split
      · split
        · rw [hasEntry_setEntry_ne _ _ _ _ (by decide),
              hasEntry_setEntry_ne _ _ _ _ (by decide)]
          rfl
        · rw [hasEntry_setEntry_ne _ _ _ _ (by decide)]; rfl
      · rfl
    | plainClass nm annots doc =>
      simp only [convert_param_type_to_schema_type, multiUnionHead, Bool.not_false]
      split
      · rw [hasEntry_setEntry_ne _ _ _ _ (by decide)]; rfl
      · rfl
    | pydModel nm doc exported =>
      simp only [convert_param_type_to_schema_type, multiUnionHead, Bool.not_false]
      cases exported with
      | none => rfl
      | some js =>
        simp only []
        by_cases h1 : hasEntry js "type"
        · rw [if_pos h1]
          by_cases h2 : hasEntry js "description"
          · rw [if_pos h2]; exact h1
          · rw [if_neg h2, hasEntry_setEntry_ne _ _ _ _ (by decide)]; exact h1
        · rw [if_neg h1]
          by_cases h2 : hasEntry (setEntry js "type" (.s "object")) "description"
          · rw [if_pos h2]; exact hasEntry_setEntry_self _ _ _
          · rw [if_neg h2, hasEntry_setEntry_ne _ _ _ _ (by decide)]
            exact hasEntry_setEntry_self _ _ _
    | union ms =>
      simp only [convert_param_type_to_schema_type, multiUnionHead]
      cases hs : stripMembers ms with
      | nil =>
        rw [firstTyMulti_of_strip_nil ms hs]
        simp only [List.isEmpty_nil, if_true, List.length_nil, Bool.not_false]
        rfl
      | cons t rest =>
        cases rest with
        | nil =>
          have hconv := convertFirstTy_strip ms t [] pn hs
          have hmult := firstTyMulti_strip ms t [] hs
          have hsz : sizeOf t ≤ n := by
            have h1 := sizeOf_strip_head ms t [] hs
            simp only [PyType.union.sizeOf_spec] at h
            omega
          have iht := ih t pn hsz
          rw [if_neg (by simp), if_pos (by simp), hconv]
          conv_rhs => rw [if_neg (by simp)]
          rw [hmult]
          by_cases hopt : isOptionalMembers ms
          · rw [if_pos hopt]
            cases hd : (convert_param_type_to_schema_type t pn).lookup "description" with
            | none =>
              rw [hasEntry_setEntry_ne _ _ _ _ (by decide)]
              exact iht
            | some v =>
              cases v <;> (rw [hasEntry_setEntry_ne _ _ _ _ (by decide)]; exact iht)
          · rw [if_neg hopt]
            exact iht
        | cons t2 rest2 =>
          rw [if_neg (by simp),
            if_neg (by simp only [List.length_cons, beq_iff_eq]; omega)]
          conv_rhs => rw [if_pos (by simp only [List.length_cons]; omega)]
          split
          · rw [hasEntry_setEntry_ne _ _ _ _ (by decide)]; rfl
          · rfl

/-- Claim C2, amended.  The translator is total (it is a total function
of the annotation, so it never raises), and the returned fragment
carries a `type` key for every annotation shape — including the
synthetic unrecognized type — except exactly when the annotation, after
peeling `Required`/`NotRequired` wrappers and single-member-union
indirection, is a union with two or more non-null members: that branch
returns a `oneOf` fragment with no `type` key. -/
theorem c2_translator_type_key_amended (t : PyType) (pn : String) :
    hasEntry (convert_param_type_to_schema_type t pn) "type" =
      !(multiUnionHead t) :=
  hasType_convert_aux (sizeOf t) t pn le_rfl

/-- Witness for C2 (amended) at a concrete annotation: the integer
primitive's fragment carries a `type` key. -/
theorem c2_witness :
    hasEntry (convert_param_type_to_schema_type PyType.int "port") "type" =
      !(multiUnionHead PyType.int) :=
  c2_translator_type_key_amended PyType.int "port"

/-- Counterexample to claim C2 as stated: for a union of two non-null
members (`Union[int, str]`) the returned mapping has no `type` key — it
carries `oneOf` instead. -/
theorem c2_counterexample :
    hasEntry (convert_param_type_to_schema_type
      (.union [.ty .int, .ty .str]) "value") "type" = false ∧
    hasEntry (convert_param_type_to_schema_type
      (.union [.ty .int, .ty .str]) "value") "oneOf" = true :=
  ⟨rfl, rfl⟩

/-- Claim C5, amended.  `Optional[str]` translates to `type: string`
with description exactly `"Optional"`.  In general, when exactly one
non-null/non-unset member remains and a null/unset marker was present,
the member's translation is returned with `" (optional)"` appended to
its description when it already has one, and with the description set to
`"Optional"` when it has none. -/
theorem c5_optional_collapse_amended :
    (convert_param_type_to_schema_type (.union [.ty .str, .noneArg]) "" =
      [("type", .s "string"), ("description", .s "Optional")]) ∧
    (∀ (ms : List UMember) (t : PyType) (pn : String),
      stripMembers ms = [t] → isOptionalMembers ms = true →
      ((convert_param_type_to_schema_type t pn).lookup "description" = none →
        convert_param_type_to_schema_type (.union ms) pn =
          setEntry (convert_param_type_to_schema_type t pn) "description"
            (.s "Optional")) ∧
      (∀ d : String,
        (convert_param_type_to_schema_type t pn).lookup "description" =
          some (.s d) →
        convert_param_type_to_schema_type (.union ms) pn =
          setEntry (convert_param_type_to_schema_type t pn) "description"
            (.s (d ++ " (optional)")))) := by
  refine ⟨rfl, ?_⟩
  intro ms t pn hs hopt
  have hconv := convertFirstTy_strip ms t [] pn hs
  constructor
  · intro hd
    simp only [convert_param_type_to_schema_type]
    rw [hs, if_neg (by simp), if_pos (by simp), hconv, if_pos hopt, hd]
  · intro d hd
    simp only [convert_param_type_to_schema_type]
    rw [hs, if_neg (by simp), if_pos (by simp), hconv, if_pos hopt, hd]

/-- Witness for C5 at concrete inputs: collapsing `str | None` under a
parameter name produces the string schema with the `"Optional"`
description written in. -/
theorem c5_witness :
    convert_param_type_to_schema_type (.union [.ty .str, .noneArg]) "limit" =
      setEntry (convert_param_type_to_schema_type .str "limit") "description"
        (.s "Optional") :=
  (c5_optional_collapse_amended.2 [.ty .str, .noneArg] .str "limit" rfl rfl).1 rfl

/-- Counterexample to claim C5 as stated: the description produced for
`Optional[str]` is the capitalized word `"Optional"`, which contains
neither the text `"optional"` nor an appended `"(optional)"` note. -/
theorem c5_counterexample :
    (convert_param_type_to_schema_type
      (.union [.ty .str, .noneArg]) "").lookup "description" =
        some (.s "Optional") ∧
    hasSub "optional".data "Optional".data = false ∧
    hasSub "(optional)".data "Optional".data = false :=
  ⟨rfl, rfl, rfl⟩

/-! ## The tool wrapper (`make_wrapper` in `server.py`) -/

/-- One parameter of an inspected signature: its name and whether
`param.default is not inspect.Parameter.empty`. -/
structure SigParam where
  name : String
  hasDefault : Bool
deriving DecidableEq

/-- The simplified annotation values `make_wrapper` installs on the
wrapper: `str` for a required parameter, `str | None` for an optional
one, `Any` for the return slot. -/
inductive SimpleAnn where
  | strAnn
  | strOrNone
  | anyAnn
deriving DecidableEq

/-- The Python annotation each simplified annotation denotes. -/
def simpleAnnType : SimpleAnn → PyType
  | .strAnn => .str
  | .strOrNone => .union [.ty .str, .noneArg]
  | .anyAnn => .anyT

/-- The `simple_annotations` dict built by `make_wrapper` from the
original signature: each parameter maps to `str | None` when it has a
default and to `str` otherwise, and `return` maps to `Any` last. -/
def make_wrapper_simple_annots (params : List SigParam) :
    List (String × SimpleAnn) :=
  setEntry
    (params.foldl (fun acc p =>
      setEntry acc p.name
        (if p.hasDefault then SimpleAnn.strOrNone else SimpleAnn.strAnn)) [])
    "return" SimpleAnn.anyAnn

theorem lookup_annots_foldl_notmem :
    ∀ (l : List SigParam) (acc : List (String × SimpleAnn)) (k : String),
      (∀ q ∈ l, q.name ≠ k) →
      ((l.foldl (fun acc p =>
          setEntry acc p.name
            (if p.hasDefault then SimpleAnn.strOrNone else SimpleAnn.strAnn)) acc).lookup k)
        = acc.lookup k := by
  intro l
  induction l with
  | nil => intro acc k _; rfl
  | cons q rest ih =>
    intro acc k hk
    simp only [List.foldl_cons]
    rw [ih _ k fun r hr => hk r (List.mem_cons_of_mem q hr)]
    exact lookup_setEntry_ne acc q.name k _ (fun he => hk q (List.mem_cons_self q rest) (he ▸ rfl))

theorem lookup_annots_foldl_mem :
    ∀ (l : List SigParam) (acc : List (String × SimpleAnn)) (p : SigParam),
      p ∈ l → (l.map (·.name)).Nodup →
      ((l.foldl (fun acc p =>
          setEntry acc p.name
            (if p.hasDefault then SimpleAnn.strOrNone else SimpleAnn.strAnn)) acc).lookup p.name)
        = some (if p.hasDefault then SimpleAnn.strOrNone else SimpleAnn.strAnn) := by
  intro l
  induction l with
  | nil => intro acc p hmem; exact absurd hmem (List.not_mem_nil p)
  | cons q rest ih =>
    intro acc p hmem hnd
    simp only [List.map_cons, List.nodup_cons] at hnd
    rcases List.mem_cons.mp hmem with heq | hmem'
    · subst heq
      simp only [List.foldl_cons]
      rw [lookup_annots_foldl_notmem rest _ p.name
        (fun r hr he => hnd.1 (he ▸ List.mem_map_of_mem (·.name) hr))]
      exact lookup_setEntry_self _ _ _
    · simp only [List.foldl_cons]
      exact ih _ p hmem' hnd.2

/-- Claim C3, amended.  The wrapper registered for a method carries, per
parameter, only the simplified annotation `str` (required, exactly when
the parameter has no default) or `str | None` (optional, exactly when it
has a default), plus `Any` for the return slot; the §4.2 translator is
not applied to the parameter's declared type at registration. -/
theorem c3_wrapper_annots_amended (params : List SigParam) (p : SigParam)
    (hmem : p ∈ params) (hnd : (params.map (·.name)).Nodup)
    (hret : p.name ≠ "return") :
    ((make_wrapper_simple_annots params).lookup p.name =
      some (if p.hasDefault then SimpleAnn.strOrNone else SimpleAnn.strAnn)) ∧
    (make_wrapper_simple_annots params).lookup "return" = some SimpleAnn.anyAnn := by
  constructor
  · unfold make_wrapper_simple_annots
    rw [lookup_setEntry_ne _ _ _ _ hret]
    exact lookup_annots_foldl_mem params [] p hmem hnd
  · exact lookup_setEntry_self _ _ _

/-- Witness for C3 (amended) at a concrete signature: the optional
parameter `limit` of a two-parameter signature is annotated
`str | None`. -/
theorem c3_witness :
    (make_wrapper_simple_annots
      [⟨"instance_id", false⟩, ⟨"limit", true⟩]).lookup "limit" =
        some SimpleAnn.strOrNone :=
  (c3_wrapper_annots_amended [⟨"instance_id", false⟩, ⟨"limit", true⟩]
    ⟨"limit", true⟩ (by decide) (by decide) (by decide)).1

/-- Counterexample to claim C3 as stated: a required parameter of
declared type `int` is registered with the simplified annotation `str`,
whose schema fragment is `type: string`, while the §4.2 translator
applied to the declared type yields `type: integer` — the registered
tool does not carry the translator's fragment. -/
theorem c3_counterexample :
    (make_wrapper_simple_annots [⟨"size", false⟩]).lookup "size" =
      some SimpleAnn.strAnn ∧
    convert_param_type_to_schema_type (simpleAnnType SimpleAnn.strAnn) "size" =
      [("type", JVal.s "string")] ∧
    convert_param_type_to_schema_type PyType.int "size" =
      [("type", JVal.s "integer")] ∧
    convert_param_type_to_schema_type (simpleAnnType SimpleAnn.strAnn) "size" ≠
      convert_param_type_to_schema_type PyType.int "size" := by
  refine ⟨rfl, rfl, rfl, ?_⟩
  intro hcontra
  rw [show convert_param_type_to_schema_type (simpleAnnType SimpleAnn.strAnn) "size" =
      [("type", JVal.s "string")] from rfl,
    show convert_param_type_to_schema_type PyType.int "size" =
      [("type", JVal.s "integer")] from rfl] at hcontra
  injection hcontra with h1 _
  injection h1 with _ h2
  injection h2 with h3
  exact absurd h3 (by decide)

/-! ## The wrapper's JSON coercion (`async_wrapper` in `server.py`) -/

/-- A Python value passed as a keyword argument to the wrapper: a
string, a native (already JSON-like) structure, or `None`. -/
inductive PVal where
  | vstr (s : String)
  | vjson (j : JVal)
  | vnone

/-- Computing `filtered_kwargs`: the wrapper first drops `None`-valued arguments. -/
def filterNoneArgs (kwargs : List (String × PVal)) : List (String × PVal) :=
  kwargs.filter fun kv =>
    match kv.2 with
    | .vnone => false
    | _ => true

/-- One iteration of the JSON-coercion loop for one special key:
if that key is bound to a string, try to decode it; on success replace
the binding with the decoded structure, on failure (`json.JSONDecodeError`,
modelled by `decode` returning `none`) log and leave the binding as is. -/
def coerceStep (decode : String → Option JVal)
    (acc : List (String × PVal)) (key : String) : List (String × PVal) :=
  match acc.lookup key with
  | some (.vstr s) =>
    match decode s with
    | some j => setEntry acc key (.vjson j)
    | none => acc
  | _ => acc

/-- The JSON-coercion loop over the domain handler's special parameter
names. -/
def coerceJsonParams (decode : String → Option JVal)
    (kwargs : List (String × PVal)) : List (String × PVal) :=
  get_json_conversion_parameters.foldl (coerceStep decode) kwargs

/-- The body of `async_wrapper` up to the SDK call: filter out `None`
values, JSON-coerce the special parameters, then invoke the method with
the resulting keyword arguments. -/
def wrapperInvoke {R : Type} (method : List (String × PVal) → R)
    (decode : String → Option JVal) (kwargs : List (String × PVal)) : R :=
  method (coerceJsonParams decode (filterNoneArgs kwargs))

/-- A coercion step for one key does not disturb other keys' bindings. -/
theorem lookup_coerceStep_ne (decode : String → Option JVal)
    (acc : List (String × PVal)) (k key : String) (hk : key ≠ k) :
    ((coerceStep decode acc k).lookup key) = acc.lookup key := by
  unfold coerceStep
  split
  · split
    · exact lookup_setEntry_ne _ _ _ _ hk
    · rfl
  · rfl

/-- When the key is bound to a string the decoder rejects, the coercion
step leaves the whole kwargs dict untouched. -/
theorem coerceStep_fail_eq (decode : String → Option JVal)
    (acc : List (String × PVal)) (key v : String)
    (hv : acc.lookup key = some (.vstr v)) (hfail : decode v = none) :
    coerceStep decode acc key = acc := by
  unfold coerceStep
  rw [hv]
  show (match decode v with
        | some j => setEntry acc key (PVal.vjson j)
        | none => acc) = acc
  rw [hfail]

theorem coerce_preserves_failed_string (decode : String → Option JVal) :
    ∀ (keys : List String) (acc : List (String × PVal)) (key : String) (v : String),
      acc.lookup key = some (.vstr v) → decode v = none →
      ((keys.foldl (coerceStep decode) acc).lookup key) = some (.vstr v) := by
  intro keys
  induction keys with
  | nil => intro acc key v hv _; exact hv
  | cons k rest ih =>
    intro acc key v hv hfail
    simp only [List.foldl_cons]
    refine ih _ key v ?_ hfail
    by_cases hk : k = key
    · subst hk
      rw [coerceStep_fail_eq decode acc k v hv hfail]
      exact hv
    · rw [lookup_coerceStep_ne decode acc k key (fun he => hk he.symm)]
      exact hv

/-- Claim C7.  For every wrapped invocation and every special parameter
(`volumes`, `interfaces`, `security_groups`) bound to a string, the
wrapper attempts to JSON-decode the string; when decoding fails, the
original string binding is passed through unchanged and the SDK method
is still invoked with the coerced keyword arguments (the failure is
non-fatal). -/
theorem c7_json_decode_failure_nonfatal {R : Type}
    (method : List (String × PVal) → R) (decode : String → Option JVal)
    (kwargs : List (String × PVal)) (key v : String)
    (_hkey : key ∈ get_json_conversion_parameters)
    (hval : (filterNoneArgs kwargs).lookup key = some (.vstr v))
    (hfail : decode v = none) :
    (coerceJsonParams decode (filterNoneArgs kwargs)).lookup key =
      some (.vstr v) ∧
    wrapperInvoke method decode kwargs =
      method (coerceJsonParams decode (filterNoneArgs kwargs)) :=
  ⟨coerce_preserves_failed_string decode get_json_conversion_parameters
      (filterNoneArgs kwargs) key v hval hfail,
    rfl⟩

/-- Witness for C7 at concrete inputs: an undecodable `volumes` string
survives the coercion loop unchanged. -/
theorem c7_witness :
    (coerceJsonParams (fun _ => none)
      (filterNoneArgs [("volumes", PVal.vstr "not json"),
        ("flavor", PVal.vstr "g1-standard-1-2"),
        ("user_data", PVal.vnone)])).lookup "volumes" =
      some (PVal.vstr "not json") :=
  (c7_json_decode_failure_nonfatal (R := List (String × PVal)) (fun l => l)
    (fun _ => none)
    [("volumes", PVal.vstr "not json"),
     ("flavor", PVal.vstr "g1-standard-1-2"),
     ("user_data", PVal.vnone)]
    "volumes" "not json" (by decide) rfl rfl).1

/-! ## SDK inspection (`core/inspection.py`)

The object graph is modelled as a finite tree of objects, each carrying
the module name of its class, its bound methods, and its non-callable
attributes.  Per method, the record stored in the catalog
(`signature`/`docstring`/`param_types`/`return_type`/`method_obj`) is
represented by its docstring; whether `inspect.signature` and
`get_type_hints` succeed for the method (they raise
`ValueError`/`TypeError` otherwise) is an explicit flag on the graph. -/

/-- The catalog record for one successfully inspected method. -/
structure MInfo where
  docstring : String
deriving DecidableEq

/-- A bound method of a graph object: whether its signature and type
hints resolve, and the record captured when they do. -/
structure MethodSpec where
  inspectable : Bool
  info : MInfo
deriving DecidableEq

/-- An object in the SDK graph: the module of its class, its bound
methods and its non-callable attributes (each reflectively enumerable). -/
inductive PyObj where
  | node (module : String) (methods : List (String × MethodSpec))
      (attrs : List (String × PyObj))

/-- Alias `ResourceMethodsDict`: resource path → method name → record. -/
abbrev Catalog := List (String × List (String × MInfo))

/-- The module name of a value's class. -/
def moduleOf : PyObj → String
  | .node m _ _ => m

/-- The methods bound to an object. -/
def methodsOf : PyObj → List (String × MethodSpec)
  | .node _ ms _ => ms

/-- The non-callable attributes of an object. -/
def attrsOf : PyObj → List (String × PyObj)
  | .node _ _ attrs => attrs

/-- Test `method_name.startswith('_')`. -/
def startsWithUnderscore (s : String) : Bool := leadsWith "_".data s.data

/-- The `skip_names` denylist of `_inspect_recursive`. -/
def skip_names : List String :=
  ["_client", "_version", "_qs", "_session", "_options", "_params",
   "_response_timeout", "api_key", "project_id", "region_id",
   "with_raw_response", "with_streaming_response", "copy", "model_copy"]

/-- The `skip_top_level` denylist of `inspect_sdk_methods`. -/
def skip_top_level : List String :=
  ["api_key", "project_id", "region_id", "with_raw_response",
   "with_streaming_response", "copy", "model_copy", "from_env"]

/-- The method loop of `_inspect_recursive`: skip private and denylisted
names; record each method whose signature and hints resolve; a
resolution failure only logs and skips that method. -/
def collectMethods (methods : List (String × MethodSpec))
    (entry : List (String × MInfo)) : List (String × MInfo) :=
  methods.foldl (fun acc m =>
    if startsWithUnderscore m.1 || skip_names.contains m.1 then acc
    else if m.2.inspectable then setEntry acc m.1 m.2.info
    else acc) entry

mutual
/-- Function `_inspect_recursive`: collect the current object's methods, insert
the accumulated resource entry only when it is nonempty, then recurse
into the eligible attributes. -/
def inspectRecursive (obj : PyObj) (currentPathParts : List String)
    (methodsDict : Catalog) (baseModuleName : String) : Catalog :=
  match obj with
  | .node _ methods attrs =>
    let currentPath := joinStr "." currentPathParts
    let resourceEntry := (methodsDict.lookup currentPath).getD []
    let resourceEntry := collectMethods methods resourceEntry
    let methodsDict :=
      if !resourceEntry.isEmpty then setEntry methodsDict currentPath resourceEntry
      else methodsDict
    inspectAttrs attrs currentPathParts methodsDict baseModuleName

/-- The attribute loop of `_inspect_recursive`: skip private and
denylisted names, and descend only into attributes whose class's module
starts with the SDK's base module name. -/
def inspectAttrs (attrs : List (String × PyObj)) (currentPathParts : List String)
    (methodsDict : Catalog) (baseModuleName : String) : Catalog :=
  match attrs with
  | [] => methodsDict
  | (attrName, attrValue) :: rest =>
    let methodsDict :=
      if startsWithUnderscore attrName || skip_names.contains attrName then
        methodsDict
      else if leadsWith baseModuleName.data (moduleOf attrValue).data then
        inspectRecursive attrValue (currentPathParts ++ [attrName]) methodsDict
          baseModuleName
      else methodsDict
    inspectAttrs rest currentPathParts methodsDict baseModuleName
end

/-- One iteration of the direct-method loop of `inspect_sdk_methods`:
the resource key for the service is created (empty) before the method is
inspected, and the record is added only when inspection succeeds. -/
def topMethodStep (acc : Catalog) (resourcePath : String)
    (m : String × MethodSpec) : Catalog :=
  if startsWithUnderscore m.1 then acc
  else
    let acc1 :=
      if (acc.lookup resourcePath).isSome then acc
      else acc ++ [(resourcePath, [])]
    if m.2.inspectable then
      setEntry acc1 resourcePath
        (setEntry ((acc1.lookup resourcePath).getD []) m.1 m.2.info)
    else acc1

/-- The direct-method loop of `inspect_sdk_methods` for one service. -/
def topMethodLoop (methodsDict : Catalog) (resourcePath : String)
    (methods : List (String × MethodSpec)) : Catalog :=
  methods.foldl (fun acc m => topMethodStep acc resourcePath m) methodsDict

/-- Processing of one top-level service object: recurse into its
eligible attributes (with a two-segment starting path), then record the
methods bound directly on the service. -/
def inspectService (methodsDict : Catalog) (serviceName : String)
    (service : PyObj) (baseModuleName : String) : Catalog :=
  match service with
  | .node _ methods attrs =>
    let afterAttrs := attrs.foldl (fun acc a =>
      if startsWithUnderscore a.1 then acc
      else if leadsWith baseModuleName.data (moduleOf a.2).data then
        inspectRecursive a.2 [serviceName, a.1] acc baseModuleName
      else acc) methodsDict
    topMethodLoop afterAttrs serviceName methods

/-- The full inspection walk of `inspect_sdk_methods` (cache aside):
derive the base module name from the client's module, then process each
top-level attribute that passes the name and module filters as a
service.  (The client's bound methods are enumerated too, but a bound
method's class never lives in the SDK module, so only the attributes
survive the module filter.) -/
def inspectSdkWalk (client : PyObj) : Catalog :=
  match client with
  | .node clientModule _ attrs =>
    let baseModuleName := ((splitStr '.' clientModule).headD "gcore")
    attrs.foldl (fun acc s =>
      if startsWithUnderscore s.1 || skip_top_level.contains s.1 then acc
      else if leadsWith baseModuleName.data (moduleOf s.2).data then
        inspectService acc s.1 s.2 baseModuleName
      else acc) []

/-- The module-level cache `_resource_methods_cache` together with an
allocation counter: a freshly built catalog carries a new allocation
identity, so that Python's `is` (reference identity) is expressible as
equality of allocation identities. -/
structure InspectionState where
  cache : Option (Nat × Catalog)
  nextId : Nat

/-- Function `inspect_sdk_methods`: return the cached dict when present,
otherwise walk the graph, publish the result in the cache and return
it. -/
def inspect_sdk_methods (client : PyObj) (st : InspectionState) :
    (Nat × Catalog) × InspectionState :=
  match st.cache with
  | some c => (c, st)
  | none =>
    let cat := inspectSdkWalk client
    ((st.nextId, cat), ⟨some (st.nextId, cat), st.nextId + 1⟩)

/-- Function `clear_inspection_cache`. -/
def clear_inspection_cache (st : InspectionState) : InspectionState :=
  { st with cache := none }

/-! ## The no stored empty resource entry invariant (claim C4) -/

/-- The invariant asserted of the catalog: no key maps to an empty
method set. -/
def noEmptyEntries (c : Catalog) : Prop := ∀ kv ∈ c, kv.2 ≠ []

theorem mem_setEntry {α : Type} (l : List (String × α)) (k : String) (v : α) :
    ∀ kv ∈ setEntry l k v, kv = (k, v) ∨ kv ∈ l := by
  induction l with
  | nil =>
    intro kv h
    simp only [setEntry] at h
    exact Or.inl (List.mem_singleton.mp h)
  | cons hd tl ih =>
    intro kv h
    by_cases hk : (hd.1 == k) = true
    · simp only [setEntry, hk, if_pos] at h
      rcases List.mem_cons.mp h with h1 | h2
      · exact Or.inl h1
      · exact Or.inr (List.mem_cons_of_mem hd h2)
    · simp only [setEntry] at h
      rw [if_neg hk] at h
      rcases List.mem_cons.mp h with h1 | h2
      · exact Or.inr (h1 ▸ List.mem_cons_self hd tl)
      · rcases ih kv h2 with h3 | h4
        · exact Or.inl h3
        · exact Or.inr (List.mem_cons_of_mem hd h4)

theorem noEmpty_setEntry (l : Catalog) (k : String) (v : List (String × MInfo))
    (hl : noEmptyEntries l) (hv : v ≠ []) : noEmptyEntries (setEntry l k v) := by
  intro kv hkv
  rcases mem_setEntry l k v kv hkv with h | h
  · rw [h]; exact hv
  · exact hl kv h

theorem noEmpty_append_single (l : Catalog) (k : String)
    (v : List (String × MInfo)) (hl : noEmptyEntries l) (hv : v ≠ []) :
    noEmptyEntries (l ++ [(k, v)]) := by
  intro kv hkv
  rcases List.mem_append.mp hkv with h | h
  · exact hl kv h
  · rw [List.mem_singleton.mp h]; exact hv

theorem setEntry_ne_nil {α : Type} (l : List (String × α)) (k : String) (v : α) :
    setEntry l k v ≠ [] := by
  cases l with
  | nil => simp [setEntry]
  | cons hd tl =>
    by_cases hk : (hd.1 == k) = true
    · simp [setEntry, hk]
    · simp only [setEntry]
      rw [if_neg hk]
      simp

theorem setEntry_append_fresh {α : Type} :
    ∀ (l : List (String × α)) (k : String) (w v : α), l.lookup k = none →
      setEntry (l ++ [(k, w)]) k v = l ++ [(k, v)] := by
  intro l
  induction l with
  | nil => intro k w v _; simp [setEntry]
  | cons hd tl ih =>
    intro k w v h
    cases hkk : k == hd.1 with
    | true =>
      exfalso
      simp [List.lookup, hkk] at h
    | false =>
      have hne : (hd.1 == k) = false := by
        cases hne' : hd.1 == k with
        | false => rfl
        | true =>
          rw [eq_of_beq hne', beq_self_eq_true] at hkk
          exact absurd hkk (by simp)
      have htl : tl.lookup k = none := by simpa [List.lookup, hkk] using h
      simp only [List.cons_append, setEntry]
      rw [if_neg (by simp [hne])]
      show hd :: setEntry (tl ++ [(k, w)]) k v = hd :: (tl ++ [(k, v)])
      rw [ih k w v htl]

/-- Fuel-indexed preservation of the invariant by the recursive walk. -/
theorem inspect_noEmpty_aux :
    ∀ n : Nat,
      (∀ (obj : PyObj) (path : List String) (dict : Catalog) (base : String),
        sizeOf obj ≤ n → noEmptyEntries dict →
        noEmptyEntries (inspectRecursive obj path dict base)) ∧
      (∀ (attrs : List (String × PyObj)) (path : List String) (dict : Catalog)
        (base : String), sizeOf attrs ≤ n → noEmptyEntries dict →
        noEmptyEntries (inspectAttrs attrs path dict base)) := by
  intro n
  induction n with
  | zero =>
    constructor
    · intro obj _ _ _ h _
      exfalso; cases obj; simp at h
    · intro attrs _ _ _ h _
      exfalso; cases attrs <;> simp at h
  | succ n ih =>
    constructor
    · intro obj path dict base h hd
      cases obj with
      | node m methods attrs =>
        simp only [inspectRecursive]
        refine ih.2 attrs path _ base ?_ ?_
        · simp only [PyObj.node.sizeOf_spec] at h; omega
        · split
          · rename_i hcond
            refine noEmpty_setEntry _ _ _ hd ?_
            intro hnil
            rw [hnil] at hcond
            simp at hcond
          · exact hd
    · intro attrs path dict base h hd
      cases attrs with
      | nil => simpa only [inspectAttrs] using hd
      | cons a rest =>
        obtain ⟨an, av⟩ := a
        simp only [inspectAttrs]
        refine ih.2 rest path _ base ?_ ?_
        · simp only [List.cons.sizeOf_spec] at h; omega
        · split
          · exact hd
          · split
            · refine (ih.1 av (path ++ [an]) dict base ?_ hd)
              simp only [List.cons.sizeOf_spec, Prod.mk.sizeOf_spec] at h; omega
            · exact hd

theorem topMethodStep_noEmpty (acc : Catalog) (svc : String)
    (m : String × MethodSpec)
    (hok : startsWithUnderscore m.1 = false → m.2.inspectable = true)
    (hacc : noEmptyEntries acc) : noEmptyEntries (topMethodStep acc svc m) := by
  unfold topMethodStep
  by_cases hu : startsWithUnderscore m.1 = true
  · rw [if_pos hu]; exact hacc
  · have hu' : startsWithUnderscore m.1 = false := by
      revert hu; cases startsWithUnderscore m.1 <;> simp
    rw [if_neg hu]
    rw [if_pos (hok hu')]
    cases hlk : acc.lookup svc with
    | some e0 =>
      rw [if_pos (by rfl)]
      exact noEmpty_setEntry acc svc _ hacc (setEntry_ne_nil _ _ _)
    | none =>
      rw [if_neg (by simp)]
      rw [setEntry_append_fresh acc svc [] _ hlk]
      exact noEmpty_append_single acc svc _ hacc (setEntry_ne_nil _ _ _)

theorem topMethodLoop_noEmpty :
    ∀ (ms : List (String × MethodSpec)) (dict : Catalog) (svc : String),
      (∀ m ∈ ms, startsWithUnderscore m.1 = false → m.2.inspectable = true) →
      noEmptyEntries dict → noEmptyEntries (topMethodLoop dict svc ms) := by
  intro ms
  induction ms with
  | nil => intro dict svc _ hd; exact hd
  | cons m rest ih =>
    intro dict svc hok hd
    simp only [topMethodLoop, List.foldl_cons]
    exact ih _ svc (fun q hq => hok q (List.mem_cons_of_mem m hq))
      (topMethodStep_noEmpty dict svc m (hok m (List.mem_cons_self m rest)) hd)

theorem attrFold_noEmpty :
    ∀ (attrs : List (String × PyObj)) (dict : Catalog) (svcName base : String),
      noEmptyEntries dict →
      noEmptyEntries (attrs.foldl (fun acc a =>
        if startsWithUnderscore a.1 then acc
        else if leadsWith base.data (moduleOf a.2).data then
          inspectRecursive a.2 [svcName, a.1] acc base
        else acc) dict) := by
  intro attrs
  induction attrs with
  | nil => intro dict _ _ hd; exact hd
  | cons a rest ih =>
    intro dict svcName base hd
    simp only [List.foldl_cons]
    apply ih
    split
    · exact hd
    · split
      · exact (inspect_noEmpty_aux (sizeOf a.2)).1 a.2 [svcName, a.1] dict base
          le_rfl hd
      · exact hd

theorem inspectService_noEmpty (dict : Catalog) (svcName : String)
    (service : PyObj) (base : String)
    (hok : ∀ m ∈ methodsOf service,
      startsWithUnderscore m.1 = false → m.2.inspectable = true)
    (hd : noEmptyEntries dict) :
    noEmptyEntries (inspectService dict svcName service base) := by
  cases service with
  | node m methods attrs =>
    simp only [inspectService]
    exact topMethodLoop_noEmpty methods _ svcName hok
      (attrFold_noEmpty attrs dict svcName base hd)

theorem svcFold_noEmpty :
    ∀ (attrs : List (String × PyObj)) (acc : Catalog) (base : String),
      noEmptyEntries acc →
      (∀ a ∈ attrs, ∀ m ∈ methodsOf a.2,
        startsWithUnderscore m.1 = false → m.2.inspectable = true) →
      noEmptyEntries (attrs.foldl (fun acc s =>
        if startsWithUnderscore s.1 || skip_top_level.contains s.1 then acc
        else if leadsWith base.data (moduleOf s.2).data then
          inspectService acc s.1 s.2 base
        else acc) acc) := by
  intro attrs
  induction attrs with
  | nil => intro acc _ hd _; exact hd
  | cons a rest ih =>
    intro acc base hd hok
    simp only [List.foldl_cons]
    refine ih _ base ?_ fun q hq => hok q (List.mem_cons_of_mem a hq)
    split
    · exact hd
    · split
      · exact inspectService_noEmpty acc a.1 a.2 base
          (hok a (List.mem_cons_self a rest)) hd
      · exact hd

/-- Claim C4, amended.  Keys inserted by the recursive walk always carry
at least one method; a key created for a top-level service also does,
provided the inspections of the service's public direct methods succeed.
(As the counterexample shows, when every public direct method of a
service fails inspection, the service's key is created and left empty.)
Under the hypothesis that every top-level service's public direct
methods are all inspectable, the returned catalog maps no key to an
empty method set. -/
theorem c4_no_empty_entries_amended (client : PyObj)
    (hsvc : ∀ a ∈ attrsOf client, ∀ m ∈ methodsOf a.2,
      startsWithUnderscore m.1 = false → m.2.inspectable = true) :
    noEmptyEntries (inspectSdkWalk client) := by
  cases client with
  | node cm cmethods attrs =>
    simp only [inspectSdkWalk]
    exact svcFold_noEmpty attrs [] _
      (fun kv h => absurd h (List.not_mem_nil kv))
      (by simpa only [attrsOf] using hsvc)

/-- Witness for C4 (amended): a concrete two-service graph in which
every public direct method inspects successfully yields a catalog with
no empty entry. -/
theorem c4_witness :
    noEmptyEntries (inspectSdkWalk (.node "gcore._client" []
      [("cloud", .node "gcore.resources.cloud"
        [("get_account_overview", ⟨true, ⟨"Account overview."⟩⟩)]
        [("instances", .node "gcore.resources.instances"
          [("create", ⟨true, ⟨"Create an instance."⟩⟩),
           ("_private", ⟨false, ⟨""⟩⟩)] [])]),
       ("dns", .node "gcore.resources.dns"
        [("list_zones", ⟨true, ⟨"List DNS zones."⟩⟩)] [])])) :=
  c4_no_empty_entries_amended _ (by decide)

/-- A client with one service whose only public direct method fails
signature inspection: the walk creates the service's key before the
inspection attempt and leaves it empty. -/
def c4Client : PyObj :=
  .node "gcore._client" []
    [("dns", .node "gcore.resources.dns"
      [("list_zones", ⟨false, ⟨"List DNS zones."⟩⟩)] [])]

/-- Counterexample to claim C4 as stated: the catalog returned for
`c4Client` contains the key `dns` mapped to an empty method set. -/
theorem c4_counterexample :
    inspectSdkWalk c4Client = [("dns", [])] ∧
    ¬ noEmptyEntries (inspectSdkWalk c4Client) := by
  refine ⟨rfl, fun h => ?_⟩
  exact h ("dns", [])
    (by rw [show inspectSdkWalk c4Client = [("dns", [])] from rfl]
        exact List.mem_singleton_self _) rfl

/-! ## Discovery caching (claim C8) -/

/-- Claim C8.  From a state with an empty cache, two consecutive
discovery calls over a fixed object graph return the identical catalog
instance (the same allocation, modelling Python reference identity); a
call after `clear_inspection_cache` re-walks the graph and returns a
content-equal catalog under a distinct allocation. -/
theorem c8_discovery_cache_identity (client : PyObj) (st : InspectionState)
    (hfresh : st.cache = none) :
    (inspect_sdk_methods client (inspect_sdk_methods client st).2).1 =
      (inspect_sdk_methods client st).1 ∧
    (inspect_sdk_methods client
        (clear_inspection_cache
          (inspect_sdk_methods client (inspect_sdk_methods client st).2).2)).1.2 =
      (inspect_sdk_methods client st).1.2 ∧
    (inspect_sdk_methods client
        (clear_inspection_cache
          (inspect_sdk_methods client (inspect_sdk_methods client st).2).2)).1.1 ≠
      (inspect_sdk_methods client st).1.1 := by
  obtain ⟨c, nid⟩ := st
  simp only at hfresh
  subst hfresh
  refine ⟨rfl, rfl, ?_⟩
  simp [inspect_sdk_methods, clear_inspection_cache]

/-- Witness for C8 at a concrete graph and the initial (empty-cache)
state. -/
theorem c8_witness :
    (inspect_sdk_methods (.node "gcore._client" [] [])
        (inspect_sdk_methods (.node "gcore._client" [] []) ⟨none, 0⟩).2).1 =
      (inspect_sdk_methods (.node "gcore._client" [] []) ⟨none, 0⟩).1 ∧
    (inspect_sdk_methods (.node "gcore._client" [] [])
        (clear_inspection_cache
          (inspect_sdk_methods (.node "gcore._client" [] [])
            (inspect_sdk_methods (.node "gcore._client" [] []) ⟨none, 0⟩).2).2)).1.1 ≠
      (inspect_sdk_methods (.node "gcore._client" [] []) ⟨none, 0⟩).1.1 :=
  ⟨(c8_discovery_cache_identity (.node "gcore._client" [] []) ⟨none, 0⟩ rfl).1,
   (c8_discovery_cache_identity (.node "gcore._client" [] []) ⟨none, 0⟩ rfl).2.2⟩

end GcoreMcp
